import Mathlib

/-!
Verification of the NetBox REST client (netbox_client.py).

The development shallowly embeds the class NetBoxRestClient: pure Python
string manipulation becomes Lean string functions, the single HTTP request
each method issues becomes an explicit Request value, and the processing of
the response becomes an explicit handler function from the Response to the
method's result.  Python exceptions (requests.HTTPError, TypeError, KeyError)
become an error type in an Except result.
-/

namespace NB

/-- JSON values, the model of Python objects returned by response.json() and
passed as request bodies.  Numbers are modelled as integers, which covers
every value the client itself constructs (ids). -/
inductive Json where
  | null
  | bool (b : Bool)
  | num (n : Int)
  | str (s : String)
  | arr (elems : List Json)
  | obj (fields : List (String × Json))

/-- Exceptions a client call can raise: requests.HTTPError carries the
response status code and body; typeError and keyError model the Python
exceptions of the same names. -/
inductive PyError where
  | httpError (status : Nat) (body : Json)
  | typeError
  | keyError (key : String)

/-- Substring test on character lists: does the needle occur contiguously in
the haystack?  Models the Python membership test on strings. -/
def charsContain (needle : List Char) : List Char → Bool
  | [] => needle.isEmpty
  | c :: t => needle.isPrefixOf (c :: t) || charsContain needle t

/-- Python membership test k in data for a string k, as the interpreter
evaluates it on each kind of JSON value: key lookup on a dict, element
comparison on a list (a string equals only an equal string), substring test
on a string, and TypeError on values that are not containers. -/
def Json.pyContains (data : Json) (k : String) : Except PyError Bool :=
  match data with
  | .obj fields => .ok (fields.any (fun f => f.1 == k))
  | .arr elems => .ok (elems.any (fun e =>
      match e with
      | .str s => s == k
      | _ => false))
  | .str s => .ok (charsContain k.data s.data)
  | _ => .error .typeError

/-- Python subscript data[k] for a string k: dict lookup (KeyError when the
key is absent), TypeError on every other kind of value (list and string
subscripts must be integers). -/
def Json.pyGetItem (data : Json) (k : String) : Except PyError Json :=
  match data with
  | .obj fields =>
    match fields.find? (fun f => f.1 == k) with
    | some f => .ok f.2
    | none => .error (.keyError k)
  | _ => .error .typeError

/-- Python s.rstrip(c) for a one-character strip set: remove every trailing
occurrence of c. -/
def pyRstrip (s : String) (c : Char) : String :=
  String.mk (s.data.rdropWhile (fun x => x == c))

/-- Python s.strip(c) for a one-character strip set: remove every leading and
trailing occurrence of c. -/
def pyStrip (s : String) (c : Char) : String :=
  String.mk ((s.data.dropWhile (fun x => x == c)).rdropWhile (fun x => x == c))

/-- The HTTP method of a request, determined by which requests.Session
function the source calls. -/
inductive HttpMethod where
  | GET
  | POST
  | PATCH
  | DELETE
deriving DecidableEq

/-- One outbound HTTP request exactly as the client hands it to the
transport: method, URL, optional query parameters (params keyword), optional
JSON body (json keyword), the SSL-verification flag, and the session
headers. -/
structure Request where
  method : HttpMethod
  url : String
  params : Option Json
  body : Option Json
  verify : Bool
  headers : List (String × String)

/-- The transport's answer: an HTTP status code and the parsed JSON body. -/
structure Response where
  status : Nat
  body : Json

/-- The session state of NetBoxRestClient, the fields set in the
constructor. -/
structure NetBoxRestClient where
  base_url : String
  api_url : String
  token : String
  verify_ssl : Bool
  headers : List (String × String)

/-- One client method call, embedded as the single request it issues, the
function that turns the transport's response into the method's result or a
raised exception, and the client's session state when the call returns. -/
structure HttpStep (α : Type) where
  req : Request
  handle : Response → Except PyError α
  postState : NetBoxRestClient

/-- The constructor of NetBoxRestClient: base_url is the url with trailing
slashes stripped, api_url appends /api, and the session headers carry the
token. -/
def NetBoxRestClient.make (url : String) (token : String) (verify_ssl : Bool) :
    NetBoxRestClient :=
  let base_url := pyRstrip url '/'
  { base_url := base_url
    api_url := base_url ++ "/api"
    token := token
    verify_ssl := verify_ssl
    headers := [("Authorization", "Token " ++ token),
                ("Content-Type", "application/json"),
                ("Accept", "application/json")] }

/-- NetBoxRestClient.build_url: strip the endpoint's leading and trailing
slashes, then {api_url}/{endpoint}/{id}/ when an id is given and
{api_url}/{endpoint}/ otherwise. -/
def NetBoxRestClient.build_url (c : NetBoxRestClient) (endpoint : String)
    (id : Option Int) : String :=
  let endpoint := pyStrip endpoint '/'
  match id with
  | some i => c.api_url ++ "/" ++ endpoint ++ "/" ++ toString i ++ "/"
  | none => c.api_url ++ "/" ++ endpoint ++ "/"

/-- requests.Response.raise_for_status: raise HTTPError exactly when the
status code is in the client-error or server-error range 400..599. -/
def raise_for_status (r : Response) : Except PyError Unit :=
  if 400 ≤ r.status ∧ r.status < 600 then .error (.httpError r.status r.body)
  else .ok ()

/-- NetBoxRestClient.get: one GET request to the built URL; on a success
status, when no id was given and the body passes the Python test
for containing a results member, return body[results], otherwise return
the body. -/
def NetBoxRestClient.get (c : NetBoxRestClient) (endpoint : String)
    (id : Option Int) (params : Option Json) : HttpStep Json :=
  { req := { method := .GET, url := c.build_url endpoint id, params := params,
             body := none, verify := c.verify_ssl, headers := c.headers }
    handle := fun response =>
      match raise_for_status response with
      | .error e => .error e
      | .ok _ =>
        match id with
        | some _ => .ok response.body
        | none =>
          match response.body.pyContains "results" with
          | .error e => .error e
          | .ok true => response.body.pyGetItem "results"
          | .ok false => .ok response.body
    postState := c }

/-- NetBoxRestClient.create: one POST request with the data as JSON body to
the collection URL; on a success status, return the parsed body. -/
def NetBoxRestClient.create (c : NetBoxRestClient) (endpoint : String)
    (data : Json) : HttpStep Json :=
  { req := { method := .POST, url := c.build_url endpoint none, params := none,
             body := some data, verify := c.verify_ssl, headers := c.headers }
    handle := fun response =>
      match raise_for_status response with
      | .error e => .error e
      | .ok _ => .ok response.body
    postState := c }

/-- NetBoxRestClient.update: one PATCH request with the data as JSON body to
the single-object URL; on a success status, return the parsed body. -/
def NetBoxRestClient.update (c : NetBoxRestClient) (endpoint : String)
    (id : Int) (data : Json) : HttpStep Json :=
  { req := { method := .PATCH, url := c.build_url endpoint (some id),
             params := none, body := some data, verify := c.verify_ssl,
             headers := c.headers }
    handle := fun response =>
      match raise_for_status response with
      | .error e => .error e
      | .ok _ => .ok response.body
    postState := c }

/-- NetBoxRestClient.delete: one DELETE request without a body to the
single-object URL; on a success status, return whether the status code is
204. -/
def NetBoxRestClient.delete (c : NetBoxRestClient) (endpoint : String)
    (id : Int) : HttpStep Bool :=
  { req := { method := .DELETE, url := c.build_url endpoint (some id),
             params := none, body := none, verify := c.verify_ssl,
             headers := c.headers }
    handle := fun response =>
      match raise_for_status response with
      | .error e => .error e
      | .ok _ => .ok (response.status == 204)
    postState := c }

/-- NetBoxRestClient.bulk_create: one POST request with the list of objects
as JSON body to {collection URL}bulk/; on a success status, return the parsed
body. -/
def NetBoxRestClient.bulk_create (c : NetBoxRestClient) (endpoint : String)
    (data : List Json) : HttpStep Json :=
  { req := { method := .POST, url := c.build_url endpoint none ++ "bulk/",
             params := none, body := some (.arr data), verify := c.verify_ssl,
             headers := c.headers }
    handle := fun response =>
      match raise_for_status response with
      | .error e => .error e
      | .ok _ => .ok response.body
    postState := c }

/-- NetBoxRestClient.bulk_update: one PATCH request with the list of objects
as JSON body to {collection URL}bulk/; on a success status, return the parsed
body. -/
def NetBoxRestClient.bulk_update (c : NetBoxRestClient) (endpoint : String)
    (data : List Json) : HttpStep Json :=
  { req := { method := .PATCH, url := c.build_url endpoint none ++ "bulk/",
             params := none, body := some (.arr data), verify := c.verify_ssl,
             headers := c.headers }
    handle := fun response =>
      match raise_for_status response with
      | .error e => .error e
      | .ok _ => .ok response.body
    postState := c }

/-- NetBoxRestClient.bulk_delete: one DELETE request to {collection
URL}bulk/ whose JSON body is the list of objects with an id field built from
the input ids in order; on a success status, return whether the status code
is 204. -/
def NetBoxRestClient.bulk_delete (c : NetBoxRestClient) (endpoint : String)
    (ids : List Int) : HttpStep Bool :=
  { req := { method := .DELETE, url := c.build_url endpoint none ++ "bulk/",
             params := none,
             body := some (.arr (ids.map (fun i => .obj [("id", .num i)]))),
             verify := c.verify_ssl, headers := c.headers }
    handle := fun response =>
      match raise_for_status response with
      | .error e => .error e
      | .ok _ => .ok (response.status == 204)
    postState := c }

/-- A sample client used by witnesses and counterexamples. -/
def sampleClient : NetBoxRestClient :=
  NetBoxRestClient.make "https://nb.example.com" "tok" true

/-- The request body of the end-to-end creation scenario of C6. -/
def siteData : Json := Json.obj [("name", Json.str "X"), ("slug", Json.str "x")]

/-- A string ends with exactly one slash: its last character is a slash and
the character before it, when present, is not. -/
def endsWithOneSlash (s : String) : Prop :=
  s.data.getLast? = some '/' ∧ s.data.dropLast.getLast? ≠ some '/'

/-- Dropping from the right ignores an appended suffix whose elements all
satisfy the predicate. -/
theorem rdropWhile_append_all {α : Type} (p : α → Bool) (l₁ l₂ : List α)
    (h : ∀ x ∈ l₂, p x) :
    List.rdropWhile p (l₁ ++ l₂) = List.rdropWhile p l₁ := by
  unfold List.rdropWhile
  rw [List.reverse_append,
    List.dropWhile_append_of_pos (fun a ha => h a (List.mem_reverse.mp ha))]

/-- A nonempty prefix of a list starts with the same element. -/
theorem head?_of_prefix {α : Type} {l₁ l₂ : List α} (h : l₁ <+: l₂)
    (hne : l₁ ≠ []) : l₂.head? = l₁.head? := by
  obtain ⟨t, rfl⟩ := h
  cases l₁ with
  | nil => exact absurd rfl hne
  | cons a r => rfl

/-- After dropping from the right every element satisfying the predicate,
the last element cannot satisfy it. -/
theorem rdropWhile_getLast?_ne {α : Type} (p : α → Bool) (l : List α) (a : α)
    (hp : p a = true) : (List.rdropWhile p l).getLast? ≠ some a := by
  intro hc
  have hne : List.rdropWhile p l ≠ [] := by
    intro h0
    rw [h0] at hc
    exact Option.noConfusion hc
  have hlast := List.rdropWhile_last_not p l hne
  rw [List.getLast?_eq_getLast _ hne] at hc
  rw [Option.some.inj hc] at hlast
  exact hlast hp

/-- The strings produced by stripping never end with the stripped
character. -/
theorem pyRstrip_getLast?_ne (s : String) (c : Char) :
    (pyRstrip s c).data.getLast? ≠ some c :=
  rdropWhile_getLast?_ne _ _ _ (by simp)

/-- The result of a two-sided strip never ends with the stripped
character. -/
theorem pyStrip_getLast?_ne (s : String) (c : Char) :
    (pyStrip s c).data.getLast? ≠ some c :=
  rdropWhile_getLast?_ne _ _ _ (by simp)

/-- The result of a two-sided strip never starts with the stripped
character. -/
theorem pyStrip_head?_ne (s : String) (c : Char) :
    (pyStrip s c).data.head? ≠ some c := by
  intro hc
  have hne : List.rdropWhile (fun x => x == c)
      (s.data.dropWhile (fun x => x == c)) ≠ [] := by
    intro h0
    have h1 : (pyStrip s c).data.head? = (none : Option Char) := by
      show (List.rdropWhile (fun x => x == c)
        (s.data.dropWhile (fun x => x == c))).head? = none
      rw [h0]
      rfl
    rw [h1] at hc
    exact Option.noConfusion hc
  have hh : (s.data.dropWhile (fun x => x == c)).head? =
      (pyStrip s c).data.head? :=
    head?_of_prefix (List.rdropWhile_prefix _ _) hne
  have hd := List.head?_dropWhile_not (fun x => x == c) s.data
  rw [hh, hc] at hd
  simp at hd

/-- Any list splits as its leading run satisfying the predicate, the middle
kept by the two-sided strip, and its trailing run satisfying the
predicate. -/
theorem strip_decomp {α : Type} (p : α → Bool) (l : List α) :
    l = l.takeWhile p ++ List.rdropWhile p (l.dropWhile p) ++
        ((l.dropWhile p).reverse.takeWhile p).reverse := by
  conv_lhs => rw [← List.takeWhile_append_dropWhile (p := p) (l := l)]
  rw [List.append_assoc]
  congr 1
  conv_lhs =>
    rw [← List.reverse_reverse (l.dropWhile p),
      ← List.takeWhile_append_dropWhile (p := p)
        (l := (l.dropWhile p).reverse)]
  rw [List.reverse_append]
  rfl

/-- A string is a run of the stripped character, then its two-sided strip,
then another run of the stripped character: stripping removes exactly the
runs of that character at both ends. -/
theorem pyStrip_decomp (s : String) (c : Char) :
    ∃ a b : Nat,
      s.data = List.replicate a c ++ (pyStrip s c).data ++
        List.replicate b c := by
  have h := strip_decomp (fun x => x == c) s.data
  have h1 : s.data.takeWhile (fun x => x == c) =
      List.replicate (s.data.takeWhile (fun x => x == c)).length c :=
    List.eq_replicate_of_mem (fun b hb => by
      have hp := List.mem_takeWhile_imp hb
      exact eq_of_beq hp)
  have h2 : ((s.data.dropWhile (fun x => x == c)).reverse.takeWhile
        (fun x => x == c)).reverse =
      List.replicate ((s.data.dropWhile (fun x => x == c)).reverse.takeWhile
        (fun x => x == c)).reverse.length c :=
    List.eq_replicate_of_mem (fun b hb => by
      have hp := List.mem_takeWhile_imp (List.mem_reverse.mp hb)
      exact eq_of_beq hp)
  rw [h1, h2] at h
  exact ⟨_, _, h⟩

/-- The character of a decimal digit differs from the slash character. -/
theorem digitChar_ne_slash (m : Nat) (hm : m < 10) :
    Nat.digitChar m ≠ '/' := by
  interval_cases m <;> decide

/-- The decimal-digit accumulator only prepends digit characters to its
accumulator, at least one when it has fuel. -/
theorem toDigitsCore_decomp (fuel : Nat) :
    ∀ (n : Nat) (ds : List Char), ∃ l : List Char,
      Nat.toDigitsCore 10 fuel n ds = l ++ ds ∧ (0 < fuel → l ≠ []) ∧
      ∀ ch ∈ l, ∃ m, m < 10 ∧ ch = Nat.digitChar m := by
  induction fuel with
  | zero =>
    intro n ds
    exact ⟨[], rfl, fun hf => absurd hf (Nat.lt_irrefl 0),
      fun ch hch => absurd hch (List.not_mem_nil ch)⟩
  | succ fuel ih =>
    intro n ds
    by_cases h : n / 10 = 0
    · refine ⟨[Nat.digitChar (n % 10)], ?_, ?_, ?_⟩
      · simp only [Nat.toDigitsCore]
        rw [if_pos h]
        rfl
      · intro _
        simp
      · intro ch hch
        have : ch = Nat.digitChar (n % 10) := by simpa using hch
        exact ⟨n % 10, Nat.mod_lt n (by decide), this⟩
    · obtain ⟨l, hl, _, hall⟩ := ih (n / 10) (Nat.digitChar (n % 10) :: ds)
      refine ⟨l ++ [Nat.digitChar (n % 10)], ?_, ?_, ?_⟩
      · simp only [Nat.toDigitsCore]
        rw [if_neg h, hl, List.append_assoc]
        rfl
      · intro _
        simp
      · intro ch hch
        rcases List.mem_append.mp hch with h1 | h2
        · exact hall ch h1
        · have : ch = Nat.digitChar (n % 10) := by simpa using h2
          exact ⟨n % 10, Nat.mod_lt n (by decide), this⟩

/-- The decimal representation of a natural number is a nonempty string of
digit characters. -/
theorem natRepr_digits (n : Nat) :
    (Nat.repr n).data ≠ [] ∧
      ∀ ch ∈ (Nat.repr n).data, ∃ m, m < 10 ∧ ch = Nat.digitChar m := by
  obtain ⟨l, hl, hne, hall⟩ := toDigitsCore_decomp (n + 1) n []
  have hd : (Nat.repr n).data = Nat.toDigitsCore 10 (n + 1) n [] := rfl
  rw [hd, hl, List.append_nil]
  exact ⟨hne (Nat.succ_pos n), hall⟩

/-- The rendering of an integer is nonempty and never ends with a slash. -/
theorem intToString_last (i : Int) :
    (toString i).data ≠ [] ∧ (toString i).data.getLast? ≠ some '/' := by
  cases i with
  | ofNat m =>
    obtain ⟨hne, hall⟩ := natRepr_digits m
    have hts : (toString (Int.ofNat m)).data = (Nat.repr m).data := rfl
    rw [hts]
    refine ⟨hne, ?_⟩
    intro hc
    have hmem : '/' ∈ (Nat.repr m).data :=
      List.mem_of_mem_getLast? (Option.mem_def.mpr hc)
    obtain ⟨m', hlt, hm'⟩ := hall '/' hmem
    exact digitChar_ne_slash m' hlt hm'.symm
  | negSucc m =>
    obtain ⟨hne, hall⟩ := natRepr_digits (m + 1)
    have hts : (toString (Int.negSucc m)).data =
        ['-'] ++ (Nat.repr (m + 1)).data := rfl
    rw [hts]
    constructor
    · simp
    · intro hc
      rw [List.getLast?_append, List.getLast?_eq_getLast _ hne,
        Option.or_some] at hc
      have hgl : (Nat.repr (m + 1)).data.getLast? = some '/' :=
        (List.getLast?_eq_getLast _ hne).trans hc
      have hmem : '/' ∈ (Nat.repr (m + 1)).data :=
        List.mem_of_mem_getLast? (Option.mem_def.mpr hgl)
      obtain ⟨m', hlt, hm'⟩ := hall '/' hmem
      exact digitChar_ne_slash m' hlt hm'.symm

/-- A string whose characters are a list followed by a single slash, where
that list does not end in a slash, ends with exactly one slash. -/
theorem endsWithOneSlash_of (s : String) (P : List Char)
    (hd : s.data = P ++ ['/']) (hP : P.getLast? ≠ some '/') :
    endsWithOneSlash s := by
  constructor
  · rw [hd, List.getLast?_append]
    rfl
  · rw [hd, List.dropLast_concat]
    exact hP

/-- C7: every operation uses exactly its HTTP verb — get uses GET, create and
bulk_create use POST, update and bulk_update use PATCH, delete and
bulk_delete use DELETE — and among the delete variants only bulk_delete
carries a JSON request body. -/
theorem claim_C7 (c : NetBoxRestClient) (e : String) (i : Option Int)
    (j : Int) (p : Option Json) (d : Json) (ds : List Json) (ids : List Int) :
    (c.get e i p).req.method = .GET ∧
    (c.create e d).req.method = .POST ∧
    (c.bulk_create e ds).req.method = .POST ∧
    (c.update e j d).req.method = .PATCH ∧
    (c.bulk_update e ds).req.method = .PATCH ∧
    (c.delete e j).req.method = .DELETE ∧
    (c.bulk_delete e ids).req.method = .DELETE ∧
    (c.delete e j).req.body = none ∧
    (c.bulk_delete e ids).req.body =
      some (.arr (ids.map (fun k => .obj [("id", .num k)]))) :=
  ⟨rfl, rfl, rfl, rfl, rfl, rfl, rfl, rfl, rfl⟩

/-- C8: no operation mutates the client's session state — the state when a
call returns equals the state before the call, for all seven operations and
all arguments. -/
theorem claim_C8 (c : NetBoxRestClient) (e : String) (i : Option Int)
    (j : Int) (p : Option Json) (d : Json) (ds : List Json) (ids : List Int) :
    (c.get e i p).postState = c ∧
    (c.create e d).postState = c ∧
    (c.update e j d).postState = c ∧
    (c.delete e j).postState = c ∧
    (c.bulk_create e ds).postState = c ∧
    (c.bulk_update e ds).postState = c ∧
    (c.bulk_delete e ids).postState = c :=
  ⟨rfl, rfl, rfl, rfl, rfl, rfl, rfl⟩

/-- C5: bulk_delete sends a body that is the sequence of one-field id
objects, one per input id, in the input order: position k of the body is
built from position k of the input list, for every k. -/
theorem claim_C5 (c : NetBoxRestClient) (e : String) (ids : List Int) :
    ∃ l : List Json,
      (c.bulk_delete e ids).req.body = some (Json.arr l) ∧
      ∀ k : Nat, l[k]? =
        (ids[k]?).map (fun i => Json.obj [("id", Json.num i)]) :=
  ⟨_, rfl, fun k => List.getElem?_map _ _ k⟩

/-- C2: delete and bulk_delete raise an HTTP error when the response status
is in the error range 400..599, and otherwise return true exactly when the
status code is 204 and false for any other code. -/
theorem claim_C2 (c : NetBoxRestClient) (e : String) (i : Int)
    (ids : List Int) (resp : Response) :
    (400 ≤ resp.status ∧ resp.status < 600 →
      (c.delete e i).handle resp = .error (.httpError resp.status resp.body) ∧
      (c.bulk_delete e ids).handle resp =
        .error (.httpError resp.status resp.body)) ∧
    (¬(400 ≤ resp.status ∧ resp.status < 600) →
      (c.delete e i).handle resp = .ok (resp.status == 204) ∧
      (c.bulk_delete e ids).handle resp = .ok (resp.status == 204)) := by
  constructor <;> intro h <;>
    simp [NetBoxRestClient.delete, NetBoxRestClient.bulk_delete,
      raise_for_status, h]

/-- Witness for C2: on status 204 delete returns true, on status 200 it
returns false, on status 404 it raises, and bulk_delete behaves alike. -/
theorem claim_C2_witness :
    (sampleClient.delete "dcim/sites" 5).handle ⟨204, Json.null⟩ = .ok true ∧
    (sampleClient.delete "dcim/sites" 5).handle ⟨200, Json.null⟩ = .ok false ∧
    (sampleClient.delete "dcim/sites" 5).handle ⟨404, Json.null⟩ =
      .error (.httpError 404 Json.null) ∧
    (sampleClient.bulk_delete "dcim/sites" [1, 2]).handle ⟨204, Json.null⟩ =
      .ok true ∧
    (sampleClient.bulk_delete "dcim/sites" [1, 2]).handle ⟨200, Json.null⟩ =
      .ok false :=
  ⟨((claim_C2 sampleClient "dcim/sites" 5 [1, 2] ⟨204, Json.null⟩).2
      (by decide)).1,
   ((claim_C2 sampleClient "dcim/sites" 5 [1, 2] ⟨200, Json.null⟩).2
      (by decide)).1,
   ((claim_C2 sampleClient "dcim/sites" 5 [1, 2] ⟨404, Json.null⟩).1
      (by decide)).1,
   ((claim_C2 sampleClient "dcim/sites" 5 [1, 2] ⟨204, Json.null⟩).2
      (by decide)).2,
   ((claim_C2 sampleClient "dcim/sites" 5 [1, 2] ⟨200, Json.null⟩).2
      (by decide)).2⟩

/-- C3: on a response whose status is in the error range 400..599, every one
of the seven operations raises an HTTP error carrying the status and body,
and returns no value. -/
theorem claim_C3 (c : NetBoxRestClient) (e : String) (i : Option Int)
    (j : Int) (p : Option Json) (d : Json) (ds : List Json) (ids : List Int)
    (resp : Response) (h : 400 ≤ resp.status ∧ resp.status < 600) :
    (c.get e i p).handle resp = .error (.httpError resp.status resp.body) ∧
    (c.create e d).handle resp = .error (.httpError resp.status resp.body) ∧
    (c.update e j d).handle resp = .error (.httpError resp.status resp.body) ∧
    (c.delete e j).handle resp = .error (.httpError resp.status resp.body) ∧
    (c.bulk_create e ds).handle resp =
      .error (.httpError resp.status resp.body) ∧
    (c.bulk_update e ds).handle resp =
      .error (.httpError resp.status resp.body) ∧
    (c.bulk_delete e ids).handle resp =
      .error (.httpError resp.status resp.body) := by
  simp [NetBoxRestClient.get, NetBoxRestClient.create, NetBoxRestClient.update,
    NetBoxRestClient.delete, NetBoxRestClient.bulk_create,
    NetBoxRestClient.bulk_update, NetBoxRestClient.bulk_delete,
    raise_for_status, h]

/-- Witness for C3: on status 404 the get and bulk_create calls raise. -/
theorem claim_C3_witness :
    (sampleClient.get "dcim/sites" none none).handle ⟨404, Json.null⟩ =
      .error (.httpError 404 Json.null) ∧
    (sampleClient.bulk_create "dcim/sites" []).handle ⟨500, Json.null⟩ =
      .error (.httpError 500 Json.null) :=
  ⟨(claim_C3 sampleClient "dcim/sites" none 0 none Json.null [] []
      ⟨404, Json.null⟩ (by decide)).1,
   (claim_C3 sampleClient "dcim/sites" none 0 none Json.null [] []
      ⟨500, Json.null⟩ (by decide)).2.2.2.2.1⟩

/-- C6: a client built from the base URL https://nb.example.com answers
create on dcim/sites with exactly one POST request to
https://nb.example.com/api/dcim/sites/ whose JSON body is the given data,
and on a success status it returns the parsed response body. -/
theorem claim_C6 (token : String) (v : Bool) (resp : Response)
    (h : ¬(400 ≤ resp.status ∧ resp.status < 600)) :
    ((NetBoxRestClient.make "https://nb.example.com" token v).create
        "dcim/sites" siteData).req.url =
      "https://nb.example.com/api/dcim/sites/" ∧
    ((NetBoxRestClient.make "https://nb.example.com" token v).create
        "dcim/sites" siteData).req.method = .POST ∧
    ((NetBoxRestClient.make "https://nb.example.com" token v).create
        "dcim/sites" siteData).req.body = some siteData ∧
    ((NetBoxRestClient.make "https://nb.example.com" token v).create
        "dcim/sites" siteData).handle resp = .ok resp.body := by
  refine ⟨rfl, rfl, rfl, ?_⟩
  simp [NetBoxRestClient.create, raise_for_status, h]

/-- Witness for C6: the concrete scenario with a 201 response returning the
created object. -/
theorem claim_C6_witness :
    ((NetBoxRestClient.make "https://nb.example.com" "tok" true).create
        "dcim/sites" siteData).req.url =
      "https://nb.example.com/api/dcim/sites/" ∧
    ((NetBoxRestClient.make "https://nb.example.com" "tok" true).create
        "dcim/sites" siteData).handle ⟨201, Json.obj [("id", Json.num 1)]⟩ =
      .ok (Json.obj [("id", Json.num 1)]) :=
  ⟨(claim_C6 "tok" true ⟨201, Json.obj [("id", Json.num 1)]⟩ (by decide)).1,
   (claim_C6 "tok" true ⟨201, Json.obj [("id", Json.num 1)]⟩
      (by decide)).2.2.2⟩

/-- C1 as amended: with no id given and a success status, when the response
body is a JSON object containing a results key, get returns the value of
that key; when the body is a JSON object without a results key, get returns
the body unchanged; and with an id given, get returns the body unchanged and
never unwraps results.  (As stated, the claim fails for non-object bodies,
where the Python membership test raises TypeError instead of returning the
body — see the counterexample.) -/
theorem claim_C1 (c : NetBoxRestClient) (e : String) (p : Option Json)
    (i : Int) (resp : Response) (fields : List (String × Json))
    (kv : String × Json) (hs : ¬(400 ≤ resp.status ∧ resp.status < 600)) :
    (resp.body = .obj fields →
      fields.find? (fun f => f.1 == "results") = some kv →
      (c.get e none p).handle resp = .ok kv.2) ∧
    (resp.body = .obj fields →
      fields.any (fun f => f.1 == "results") = false →
      (c.get e none p).handle resp = .ok resp.body) ∧
    (c.get e (some i) p).handle resp = .ok resp.body := by
  refine ⟨?_, ?_, ?_⟩
  · intro hb hf
    have h1 := List.find?_some hf
    have h2 := List.mem_of_find?_eq_some hf
    have hany : fields.any (fun f => f.1 == "results") = true :=
      List.any_eq_true.mpr ⟨kv, h2, h1⟩
    simp [NetBoxRestClient.get, raise_for_status, hs, hb, Json.pyContains,
      hany, Json.pyGetItem, hf]
  · intro hb hnone
    simp [NetBoxRestClient.get, raise_for_status, hs, hb, Json.pyContains,
      hnone]
  · simp [NetBoxRestClient.get, raise_for_status, hs]

/-- Counterexample to C1 as stated: on a success response whose body is the
JSON number 5 — a body with no results key — get with no id raises TypeError
rather than returning the body unchanged. -/
theorem claim_C1_counterexample :
    (sampleClient.get "dcim/sites" none none).handle ⟨200, Json.num 5⟩ =
      .error PyError.typeError ∧
    (sampleClient.get "dcim/sites" none none).handle ⟨200, Json.num 5⟩ ≠
      .ok (Json.num 5) :=
  ⟨rfl, fun h => Except.noConfusion h⟩

/-- Witness for C1: a paginated envelope is unwrapped, an object without a
results key is returned unchanged, and with an id the envelope is not
unwrapped. -/
theorem claim_C1_witness :
    (sampleClient.get "dcim/sites" none none).handle
      ⟨200, Json.obj [("results", Json.arr [Json.num 1]),
                      ("count", Json.num 1)]⟩ =
      .ok (Json.arr [Json.num 1]) ∧
    (sampleClient.get "dcim/sites" none none).handle
      ⟨200, Json.obj [("count", Json.num 0)]⟩ =
      .ok (Json.obj [("count", Json.num 0)]) ∧
    (sampleClient.get "dcim/sites" (some 5) none).handle
      ⟨200, Json.obj [("results", Json.arr [Json.num 1])]⟩ =
      .ok (Json.obj [("results", Json.arr [Json.num 1])]) :=
  ⟨(claim_C1 sampleClient "dcim/sites" none 5
      ⟨200, Json.obj [("results", Json.arr [Json.num 1]),
                      ("count", Json.num 1)]⟩
      [("results", Json.arr [Json.num 1]), ("count", Json.num 1)]
      ("results", Json.arr [Json.num 1]) (by decide)).1 rfl rfl,
   (claim_C1 sampleClient "dcim/sites" none 5
      ⟨200, Json.obj [("count", Json.num 0)]⟩
      [("count", Json.num 0)] ("results", Json.null) (by decide)).2.1 rfl rfl,
   (claim_C1 sampleClient "dcim/sites" none 5
      ⟨200, Json.obj [("results", Json.arr [Json.num 1])]⟩
      [("results", Json.arr [Json.num 1])] ("results", Json.null)
      (by decide)).2.2⟩

/-- C4 as amended: for every endpoint string whose two-sided slash strip is
nonempty, URL building strips exactly the runs of slashes at both ends of
the endpoint — the endpoint is a run of slashes, the stripped core (which
neither starts nor ends with a slash), and another run of slashes — and
assembles the collection URL {api_url}/{endpoint}/, the single-object URL
{api_url}/{endpoint}/{id}/ and the bulk URL {collection URL}bulk/, each of
which ends with exactly one trailing slash.  (As stated over every endpoint
string the claim fails: an endpoint consisting only of slashes strips to the
empty string and the collection URL then ends with two slashes — see the
counterexample.) -/
theorem claim_C4 (c : NetBoxRestClient) (e : String) (i : Int) (d : Json)
    (h : pyStrip e '/' ≠ "") :
    (∃ a b : Nat, e.data =
        List.replicate a '/' ++ (pyStrip e '/').data ++
          List.replicate b '/') ∧
    (pyStrip e '/').data.head? ≠ some '/' ∧
    (pyStrip e '/').data.getLast? ≠ some '/' ∧
    c.build_url e none = c.api_url ++ "/" ++ pyStrip e '/' ++ "/" ∧
    c.build_url e (some i) =
      c.api_url ++ "/" ++ pyStrip e '/' ++ "/" ++ toString i ++ "/" ∧
    (c.bulk_create e [d]).req.url = c.build_url e none ++ "bulk/" ∧
    endsWithOneSlash (c.build_url e none) ∧
    endsWithOneSlash (c.build_url e (some i)) ∧
    endsWithOneSlash ((c.bulk_create e [d]).req.url) := by
  have hne : (pyStrip e '/').data ≠ [] := by
    intro h0
    exact h (String.ext (by rw [h0]))
  refine ⟨pyStrip_decomp e '/', pyStrip_head?_ne e '/',
    pyStrip_getLast?_ne e '/', rfl, rfl, rfl, ?_, ?_, ?_⟩
  · refine endsWithOneSlash_of _ ((c.api_url ++ "/" ++ pyStrip e '/').data)
      rfl ?_
    intro hc
    have hrep : (c.api_url ++ "/" ++ pyStrip e '/').data =
        (c.api_url ++ "/").data ++ (pyStrip e '/').data := rfl
    have hgl : (pyStrip e '/').data.getLast? =
        some ((pyStrip e '/').data.getLast hne) :=
      List.getLast?_eq_getLast _ hne
    rw [hrep, List.getLast?_append, hgl, Option.or_some] at hc
    exact pyStrip_getLast?_ne e '/' (hgl.trans hc)
  · refine endsWithOneSlash_of _
      ((c.api_url ++ "/" ++ pyStrip e '/' ++ "/" ++ toString i).data)
      rfl ?_
    obtain ⟨hne2, hlast2⟩ := intToString_last i
    intro hc
    have hrep : (c.api_url ++ "/" ++ pyStrip e '/' ++ "/" ++
        toString i).data =
        (c.api_url ++ "/" ++ pyStrip e '/' ++ "/").data ++
          (toString i).data := rfl
    have hgl : (toString i).data.getLast? =
        some ((toString i).data.getLast hne2) :=
      List.getLast?_eq_getLast _ hne2
    rw [hrep, List.getLast?_append, hgl, Option.or_some] at hc
    exact hlast2 (hgl.trans hc)
  · refine endsWithOneSlash_of _ ((c.build_url e none ++ "bulk").data) ?_ ?_
    · show (c.build_url e none).data ++ (['b', 'u', 'l', 'k', '/'] : List Char) =
        ((c.build_url e none).data ++ ['b', 'u', 'l', 'k']) ++ ['/']
      rw [List.append_assoc]
      rfl
    · intro hc
      have hrep : (c.build_url e none ++ "bulk").data =
          (c.build_url e none).data ++ (['b', 'u', 'l', 'k'] : List Char) :=
        rfl
      rw [hrep, List.getLast?_append] at hc
      exact absurd (Option.some.inj hc) (by decide)

/-- Counterexample to C4 as stated: for the endpoint consisting of a single
slash, the collection URL is the API root followed by two slashes, which
does not end with exactly one trailing slash. -/
theorem claim_C4_counterexample :
    sampleClient.build_url "/" none = "https://nb.example.com/api//" ∧
    ¬ endsWithOneSlash (sampleClient.build_url "/" none) := by
  refine ⟨rfl, ?_⟩
  intro hc
  exact hc.2 (by decide)

/-- Witness for C4: the three URLs built from the endpoint /dcim/sites/ each
end with exactly one trailing slash. -/
theorem claim_C4_witness :
    endsWithOneSlash (sampleClient.build_url "/dcim/sites/" none) ∧
    endsWithOneSlash (sampleClient.build_url "/dcim/sites/" (some 5)) ∧
    endsWithOneSlash
      ((sampleClient.bulk_create "/dcim/sites/" [Json.null]).req.url) :=
  ⟨(claim_C4 sampleClient "/dcim/sites/" 5 Json.null
      (by decide)).2.2.2.2.2.2.1,
   (claim_C4 sampleClient "/dcim/sites/" 5 Json.null
      (by decide)).2.2.2.2.2.2.2.1,
   (claim_C4 sampleClient "/dcim/sites/" 5 Json.null
      (by decide)).2.2.2.2.2.2.2.2⟩

/-- C9: the API root equals the base URL with all trailing slashes stripped,
followed by /api; clients built from a URL and from that URL with trailing
slashes appended build identical request URLs; and the stored base URL never
ends with a slash, so no double slash is introduced before api. -/
theorem claim_C9 (u s token e : String) (v : Bool) (i : Option Int)
    (h : ∀ ch ∈ s.data, ch = '/') :
    (NetBoxRestClient.make u token v).api_url = pyRstrip u '/' ++ "/api" ∧
    (NetBoxRestClient.make (u ++ s) token v).build_url e i =
      (NetBoxRestClient.make u token v).build_url e i ∧
    (NetBoxRestClient.make u token v).base_url.data.getLast? ≠ some '/' := by
  have hr : pyRstrip (u ++ s) '/' = pyRstrip u '/' := by
    show String.mk (List.rdropWhile (fun x => x == '/') (u ++ s).data) =
      String.mk (List.rdropWhile (fun x => x == '/') u.data)
    rw [String.data_append,
      rdropWhile_append_all _ _ _ (fun x hx => by simp [h x hx])]
  refine ⟨rfl, ?_, pyRstrip_getLast?_ne u '/'⟩
  simp only [NetBoxRestClient.make, NetBoxRestClient.build_url, hr]

/-- Witness for C9: appending two slashes to the base URL leaves the built
collection URL unchanged. -/
theorem claim_C9_witness :
    (NetBoxRestClient.make "https://nb.example.com//" "tok" true).build_url
        "dcim/sites" none =
      (NetBoxRestClient.make "https://nb.example.com" "tok" true).build_url
        "dcim/sites" none :=
  (claim_C9 "https://nb.example.com" "//" "tok" "dcim/sites" true none
    (by decide)).2.1

/-- C10: for an endpoint that is empty or consists only of slashes, URL
building still succeeds and the collection URL is the API root followed by
two slashes. -/
theorem claim_C10 (c : NetBoxRestClient) (e : String)
    (h : ∀ ch ∈ e.data, ch = '/') :
    c.build_url e none = c.api_url ++ "//" := by
  have hstrip : pyStrip e '/' = "" := by
    show String.mk (List.rdropWhile (fun x => x == '/')
      (e.data.dropWhile (fun x => x == '/'))) = ""
    have h1 : e.data.dropWhile (fun x => x == '/') = [] :=
      List.dropWhile_eq_nil_iff.mpr (fun x hx => by simp [h x hx])
    rw [h1]
    rfl
  show c.api_url ++ "/" ++ pyStrip e '/' ++ "/" = c.api_url ++ "//"
  rw [hstrip, String.append_empty, String.append_assoc]
  rfl

/-- Witness for C10: the endpoints // and the empty string both build the
collection URL api root followed by two slashes. -/
theorem claim_C10_witness :
    sampleClient.build_url "//" none = sampleClient.api_url ++ "//" ∧
    sampleClient.build_url "" none = sampleClient.api_url ++ "//" :=
  ⟨claim_C10 sampleClient "//" (by decide),
   claim_C10 sampleClient "" (by decide)⟩

end NB
